import Mathlib

/-!
Verification development for the test-case generator repository.

The definitions below are a shallow embedding of the line-oriented parsing
core of the repository:

* `src/testcase_generator/core/parsers/screenshots.py` —
  `ScreenshotParser.parse_test_cases_from_response`,
  `ScreenshotParser._create_test_case_from_dict`,
  `ScreenshotParser.create_vision_prompt`;
* `src/testcase_generator/core/parsers/requirements.py` —
  `RequirementsParser.extract_requirements_from_text` and its helper
  methods;
* `src/testcase_generator/core/models.py` — the `TestCase` and
  `Requirement` records with the `steps_must_not_be_empty` validator.

Python string primitives (`str.strip`, `str.split`, `str.replace`,
`str.startswith`, `str.lower`, `' '.join`) are modelled by executable
functions over `List Char` so that every definition evaluates inside the
kernel.  Machine-level details that the source does not rely on (Unicode
categories beyond ASCII) are modelled at the ASCII level, which covers
every input appearing in the theorems below.
-/

/-! ## Python string primitives -/

/-- Whitespace characters removed by `str.strip()` (ASCII subset:
space, tab, newline, carriage return, vertical tab, form feed). -/
def isPyWs (c : Char) : Bool :=
  c == ' ' || c == '\t' || c == '\n' || c == '\r' ||
  c == Char.ofNat 11 || c == Char.ofNat 12

/-- Python `str.strip()`: remove whitespace from both ends. -/
def pyStrip (s : String) : String :=
  ⟨((s.data.dropWhile isPyWs).reverse.dropWhile isPyWs).reverse⟩

/-- Python truthiness of a string: empty strings are falsy. -/
def pyIsEmpty (s : String) : Bool :=
  s.data.isEmpty

/-- List-level prefix test used to model `str.startswith`. -/
def hasPrefixChars : List Char → List Char → Bool
  | [], _ => true
  | _ :: _, [] => false
  | n :: ns, h :: hs => n == h && hasPrefixChars ns hs

/-- Python `s.startswith(pre)`. -/
def pyStartsWith (s pre : String) : Bool :=
  hasPrefixChars pre.data s.data

/-- Splitting on the newline character, exactly like Python
`s.split('\n')`: the empty string yields `[""]`, and empty segments
between consecutive separators are kept. -/
def splitLinesChars : List Char → List (List Char)
  | [] => [[]]
  | c :: cs =>
    match splitLinesChars cs with
    | [] => [[]]
    | r :: rs => if c == '\n' then [] :: r :: rs else (c :: r) :: rs

/-- Python `s.split('\n')`. -/
def pySplitLines (s : String) : List String :=
  (splitLinesChars s.data).map fun cs => ⟨cs⟩

/-- Fuel-driven worker for `pyReplace`; the fuel starts at the length of
the string, which is enough because every step consumes at least one
character of the input. -/
def pyReplaceFuel (pat rep : List Char) : Nat → List Char → List Char
  | _, [] => []
  | 0, l => l
  | fuel + 1, c :: cs =>
    if hasPrefixChars pat (c :: cs) then
      rep ++ pyReplaceFuel pat rep fuel ((c :: cs).drop pat.length)
    else
      c :: pyReplaceFuel pat rep fuel cs

/-- Python `s.replace(pat, rep)`: replace every non-overlapping
occurrence of `pat`, scanning left to right. -/
def pyReplace (s pat rep : String) : String :=
  if pyIsEmpty pat then s else ⟨pyReplaceFuel pat.data rep.data s.data.length s.data⟩

/-- Python `' '.join`-style concatenation with a separator. -/
def pyJoin (sep : String) : List String → String
  | [] => ""
  | [x] => x
  | x :: xs => x ++ sep ++ pyJoin sep xs

/-- Python `s.lower()` (ASCII). -/
def pyLower (s : String) : String :=
  ⟨s.data.map Char.toLower⟩

/-- First character of a string (only ever used behind a non-emptiness
guard, mirroring `line and line[0]` in the source). -/
def pyFront (s : String) : Char :=
  s.data.headD (Char.ofNat 0)

/-! ## Domain model (`core/models.py`)

`TestCase` keeps the fields the parsing pipeline writes; the pydantic
metadata dictionary `{'covered_elements': ..., 'source': 'screenshot_ai'}`
is modelled by the two string fields `covered_elements` and `source`.
The `steps_must_not_be_empty` validator appears as the guard of
`createTestCaseE` below. -/

inductive TestCaseType where
  | FUNC | BOUND | NEG | PERM | SEC | PERF | A11Y
deriving DecidableEq, Repr

inductive Priority where
  | P0 | P1 | P2 | P3
deriving DecidableEq, Repr

structure TestCase where
  id : String
  title : String
  test_type : TestCaseType
  priority : Priority
  preconditions : List String
  steps : List String
  expected_result : String
  covered_elements : String
  source : String
deriving DecidableEq, Repr

/-! ## Screenshot response parser (`parsers/screenshots.py`) -/

/-- The mid-parse field dictionary `current_case`.  Each key of the
Python dict is a field; `none` models the key being absent.  Values are
always strings in the source, so present keys carry `String`. -/
structure CaseDict where
  id : Option String := none
  title : Option String := none
  type : Option String := none
  priority : Option String := none
  preconditions : Option String := none
  expected_result : Option String := none
  covered_elements : Option String := none
deriving DecidableEq, Repr

/-- Python truthiness of the `current_case` dict: keys are only ever
added, so the dict is empty exactly when every field is `none`. -/
def CaseDict.isEmptyDict (d : CaseDict) : Bool :=
  d.id.isNone && d.title.isNone && d.type.isNone && d.priority.isNone &&
  d.preconditions.isNone && d.expected_result.isNone && d.covered_elements.isNone

/-- `type_mapping` dict of `_create_test_case_from_dict`. -/
def type_mapping : List (String × TestCaseType) :=
  [("FUNC", .FUNC), ("BOUND", .BOUND), ("NEG", .NEG), ("PERM", .PERM),
   ("SEC", .SEC), ("PERF", .PERF), ("A11Y", .A11Y)]

/-- `priority_mapping` dict of `_create_test_case_from_dict`. -/
def priority_mapping : List (String × Priority) :=
  [("P0", .P0), ("P1", .P1), ("P2", .P2), ("P3", .P3)]

/-- Construction of the pydantic `TestCase` inside
`_create_test_case_from_dict`.  The only operation that can raise is the
`steps_must_not_be_empty` validator of `models.TestCase`; it is the
`Except.error` branch here.  All other field conversions are total. -/
def createTestCaseE (d : CaseDict) (steps : List String) : Except String TestCase :=
  if steps.isEmpty then
    Except.error "Test case must have at least one step"
  else
    Except.ok
      { id := d.id.getD ""
        title := d.title.getD ""
        test_type := (List.lookup (d.type.getD "FUNC") type_mapping).getD .FUNC
        priority := (List.lookup (d.priority.getD "P2") priority_mapping).getD .P2
        preconditions :=
          match d.preconditions with
          | some p => if pyIsEmpty p then [] else [p]
          | none => []
        steps := steps
        expected_result := d.expected_result.getD ""
        covered_elements := d.covered_elements.getD ""
        source := "screenshot_ai" }

/-- `_create_test_case_from_dict`: the `try/except` around the record
construction turns a validation error into `None`. -/
def _create_test_case_from_dict (d : CaseDict) (steps : List String) : Option TestCase :=
  match createTestCaseE d steps with
  | .ok tc => some tc
  | .error _ => none

/-- Mutable loop state of `parse_test_cases_from_response`. -/
structure ParseState where
  cases : List TestCase
  currentCase : CaseDict
  currentSteps : List String
  inSteps : Bool
deriving DecidableEq, Repr

/-- The body of `if current_case: ... if test_case: append`, shared by
the record-marker branch and the end-of-input flush. -/
def emitCurrent (st : ParseState) : List TestCase :=
  if st.currentCase.isEmptyDict then st.cases
  else
    match _create_test_case_from_dict st.currentCase st.currentSteps with
    | some tc => st.cases ++ [tc]
    | none => st.cases

/-- Classification of a stripped line by the `elif` chain of
`parse_test_cases_from_response`, in source order. -/
inductive LineClass where
  | marker | title | ctype | cpriority | cprecond | stepsLabel | expected | covered | other
deriving DecidableEq, Repr

/-- The `elif` chain: the first matching prefix wins. -/
def classifyLine (line : String) : LineClass :=
  if pyStartsWith line "TC-" then .marker
  else if pyStartsWith line "Title:" then .title
  else if pyStartsWith line "Type:" then .ctype
  else if pyStartsWith line "Priority:" then .cpriority
  else if pyStartsWith line "Preconditions:" then .cprecond
  else if pyStartsWith line "Steps:" then .stepsLabel
  else if pyStartsWith line "Expected Result:" then .expected
  else if pyStartsWith line "Covered Elements:" then .covered
  else .other

/-- Step text extraction:
`line.split('.', 1)[1].strip() if '.' in line else line`. -/
def stepTextOf (line : String) : String :=
  if line.data.contains '.' then
    pyStrip ⟨(line.data.dropWhile (fun c => c != '.')).drop 1⟩
  else line

/-- One iteration of the `for line in lines` loop of
`parse_test_cases_from_response`. -/
def processLine (st : ParseState) (raw : String) : ParseState :=
  match classifyLine (pyStrip raw) with
  | .marker =>
      { cases := emitCurrent st
        currentCase := { id := some (pyStrip raw) }
        currentSteps := []
        inSteps := false }
  | .title =>
      { st with currentCase :=
          { st.currentCase with title := some (pyStrip (pyReplace (pyStrip raw) "Title:" "")) } }
  | .ctype =>
      { st with currentCase :=
          { st.currentCase with type := some (pyStrip (pyReplace (pyStrip raw) "Type:" "")) } }
  | .cpriority =>
      { st with currentCase :=
          { st.currentCase with priority := some (pyStrip (pyReplace (pyStrip raw) "Priority:" "")) } }
  | .cprecond =>
      { st with currentCase :=
          { st.currentCase with preconditions := some (pyStrip (pyReplace (pyStrip raw) "Preconditions:" "")) } }
  | .stepsLabel =>
      { st with inSteps := true }
  | .expected =>
      { st with
          currentCase :=
            { st.currentCase with expected_result := some (pyStrip (pyReplace (pyStrip raw) "Expected Result:" "")) }
          inSteps := false }
  | .covered =>
      { st with currentCase :=
          { st.currentCase with covered_elements := some (pyStrip (pyReplace (pyStrip raw) "Covered Elements:" "")) } }
  | .other =>
      if st.inSteps && !pyIsEmpty (pyStrip raw) && (pyFront (pyStrip raw)).isDigit then
        { st with currentSteps := st.currentSteps ++ [stepTextOf (pyStrip raw)] }
      else st

/-- `ScreenshotParser.parse_test_cases_from_response`. -/
def parse_test_cases_from_response (s : String) : List TestCase :=
  emitCurrent ((pySplitLines s).foldl processLine ⟨[], {}, [], false⟩)

/-! ### Exception-explicit model of the same parser

Python exceptions propagate unless caught; the following definitions
re-run the parser in the `Except` monad, keeping the one potentially
raising operation (`models.TestCase` construction) explicit and the one
`try/except` (inside `_create_test_case_from_dict`) as the only catch.
Claim C4 proves this model never reaches an `error`. -/

/-- `_create_test_case_from_dict` with its `try/except` visible: a
validation error from the record constructor is caught and becomes
`none`; nothing else can raise. -/
def _create_test_case_from_dictE (d : CaseDict) (steps : List String) :
    Except String (Option TestCase) :=
  match createTestCaseE d steps with
  | .ok tc => .ok (some tc)
  | .error _ => .ok none

/-- Exception-explicit version of `emitCurrent`. -/
def emitCurrentE (st : ParseState) : Except String (List TestCase) :=
  if st.currentCase.isEmptyDict then .ok st.cases
  else
    match _create_test_case_from_dictE st.currentCase st.currentSteps with
    | .ok (some tc) => .ok (st.cases ++ [tc])
    | .ok none => .ok st.cases
    | .error e => .error e

/-- Exception-explicit version of `processLine`: the record-marker
branch is the only one that invokes fallible code. -/
def processLineE (st : ParseState) (raw : String) : Except String ParseState :=
  match classifyLine (pyStrip raw) with
  | .marker =>
      match emitCurrentE st with
      | .ok cs =>
          .ok { cases := cs
                currentCase := { id := some (pyStrip raw) }
                currentSteps := []
                inSteps := false }
      | .error e => .error e
  | _ => .ok (processLine st raw)

/-- Exception-propagating fold over the input lines. -/
def foldProcessE : ParseState → List String → Except String ParseState
  | st, [] => .ok st
  | st, l :: ls =>
    match processLineE st l with
    | .ok st' => foldProcessE st' ls
    | .error e => .error e

/-- `parse_test_cases_from_response` in the `Except` monad. -/
def parse_test_cases_from_responseE (s : String) : Except String (List TestCase) :=
  match foldProcessE ⟨[], {}, [], false⟩ (pySplitLines s) with
  | .ok st => emitCurrentE st
  | .error e => .error e

/-! ## Vision prompt builder (`ScreenshotParser.create_vision_prompt`)

A literal transcription of the f-string: fixed text, the comma-joined
category list, and the caller context interpolated verbatim. -/

/-- `ScreenshotParser.create_vision_prompt`. -/
def create_vision_prompt (test_types : List String) (additional_context : String) : String :=
  "You are a test case generator. Analyze the provided screenshot and generate comprehensive test cases.\n\n**Test Case Types to Generate:**\n"
  ++ pyJoin ", " test_types
  ++ "\n\n**Instructions:**\n1. Identify all interactive elements (buttons, inputs, dropdowns, links, etc.)\n2. Identify all data fields and their constraints\n3. Identify user flows and navigation paths\n4. Identify potential error states and edge cases\n5. Generate test cases covering functional, boundary, negative, and security scenarios\n\n**Output Format:**\nFor each test case, provide:\n- Test Case ID (format: TC-XXX)\n- Title (descriptive and specific)\n- Test Type (FUNC/BOUND/NEG/PERM/SEC/PERF/A11Y)\n- Priority (P0/P1/P2/P3)\n- Preconditions (if any)\n- Test Steps (numbered list)\n- Expected Result\n- Covered Elements (list of UI elements tested)\n\n**Additional Context:**\n"
  ++ additional_context
  ++ "\n\n**Example Output:**\n```\nTC-001: User Login - Valid Credentials\nType: FUNC\nPriority: P0\nPreconditions: User is on login page\nSteps:\n1. Enter valid username in username field\n2. Enter valid password in password field\n3. Click login button\nExpected Result: User is successfully logged in and redirected to dashboard\nCovered Elements: username field, password field, login button\n```\n\nPlease analyze the screenshot and generate test cases following this format."

/-! ## Requirements text parser (`parsers/requirements.py`)

The identifier regular expressions of `RequirementsParser.id_patterns`
are implemented as direct matchers with `re.search` semantics: the
leftmost position at which the pattern matches wins, `re.IGNORECASE`
makes letters case-insensitive, and greedy quantifiers backtrack, so
e.g. `REQ\x5cw+\x5cd+` matches `REQ` followed by the longest word-character
run that still leaves a digit to start `\x5cd+`. -/

/-- Regex `\x5cw` at the ASCII level. -/
def isWordChar (c : Char) : Bool :=
  c.isAlphanum || c == '_'

/-- `re.search`: try the position matcher at every suffix, leftmost
match wins, returning the matched characters. -/
def reSearch (m : List Char → Option (List Char)) : List Char → Option (List Char)
  | [] => m []
  | c :: cs =>
    match m (c :: cs) with
    | some r => some r
    | none => reSearch m cs

/-- Case-insensitive literal followed by `\x5cd+`, matched at the current
position; covers the patterns `REQ-\x5cd+`, `R-\x5cd+` and
`REQUIREMENT-\x5cd+`. -/
def matchLitDigits (lit : List Char) (cs : List Char) : Option (List Char) :=
  let pre := cs.take lit.length
  let rest := cs.drop lit.length
  if pre.length == lit.length
      && (pre.zip lit).all (fun p => p.1.toLower == p.2.toLower)
      && !(rest.takeWhile Char.isDigit).isEmpty then
    some (pre ++ rest.takeWhile Char.isDigit)
  else none

/-- Greedy split for `REQ_\x5cw+_\x5cd+` after the literal `REQ_`: the
longest word-character prefix `\x5cw+` that is followed by `_` and at
least one digit; `\x5cd+` then extends greedily. -/
def findUndSplit (w : List Char) : Option (List Char) :=
  (List.range w.length).reverse.findSome? fun k =>
    if decide (1 ≤ k) && (w.getD k ' ' == '_') && (w.getD (k + 1) ' ').isDigit then
      some (w.take (k + 1) ++ (w.drop (k + 1)).takeWhile Char.isDigit)
    else none

/-- Position matcher for `REQ_\x5cw+_\x5cd+` (case-insensitive letters). -/
def matchAtReqUnd : List Char → Option (List Char)
  | r :: e :: q :: u :: rest =>
    if r.toLower == 'r' && e.toLower == 'e' && q.toLower == 'q' && u == '_' then
      match findUndSplit (rest.takeWhile isWordChar) with
      | some m => some (r :: e :: q :: u :: m)
      | none => none
    else none
  | _ => none

/-- Greedy split for `REQ\x5cw+\x5cd+` after the literal `REQ`: the longest
nonempty word-character prefix followed by a digit, with `\x5cd+`
extending greedily from that digit. -/
def findWDigitSplit (w : List Char) : Option (List Char) :=
  (List.range w.length).reverse.findSome? fun j =>
    if decide (1 ≤ j) && (w.getD j ' ').isDigit then
      some (w.take j ++ (w.drop j).takeWhile Char.isDigit)
    else none

/-- Position matcher for `REQ\x5cw+\x5cd+` (case-insensitive letters). -/
def matchAtReqW : List Char → Option (List Char)
  | r :: e :: q :: rest =>
    if r.toLower == 'r' && e.toLower == 'e' && q.toLower == 'q' then
      match findWDigitSplit (rest.takeWhile isWordChar) with
      | some m => some (r :: e :: q :: m)
      | none => none
    else none
  | _ => none

/-- `RequirementsParser.id_patterns`, in source order, as position
matchers. -/
def id_patterns : List (List Char → Option (List Char)) :=
  [matchLitDigits "REQ-".data,
   matchAtReqUnd,
   matchAtReqW,
   matchLitDigits "R-".data,
   matchLitDigits "REQUIREMENT-".data]

/-- `RequirementsParser._extract_requirement_id`: the first pattern in
list order that matches anywhere in the line wins; the matched text is
returned. -/
def _extract_requirement_id (line : String) : Option String :=
  (id_patterns.findSome? fun m => reSearch m line.data).map fun cs => ⟨cs⟩

/-- Fuel-driven worker for `reSubAll` (fuel = input length suffices: at
least one character is consumed per step). -/
def reSubAllFuel (m : List Char → Option (List Char)) : Nat → List Char → List Char
  | _, [] => []
  | 0, l => l
  | fuel + 1, c :: cs =>
    match m (c :: cs) with
    | some r => reSubAllFuel m fuel (cs.drop (r.length - 1))
    | none => c :: reSubAllFuel m fuel cs

/-- `re.sub(pattern, '', s)`: delete every non-overlapping match,
scanning left to right and continuing after each match. -/
def reSubAll (m : List Char → Option (List Char)) (l : List Char) : List Char :=
  reSubAllFuel m l.length l

/-- The anchored boilerplate regex
`^(requirement|req|spec|specification):\x5cs*` of `_extract_title`:
alternatives with the trailing colon, tried with backtracking. -/
def boilerplates : List String :=
  ["requirement:", "req:", "spec:", "specification:"]

/-- Strip one leading boilerplate marker and the whitespace after it. -/
def stripBoilerplate (t : String) : String :=
  match boilerplates.find? (fun b => pyStartsWith (pyLower t) b) with
  | some b => ⟨(t.data.drop b.length).dropWhile isPyWs⟩
  | none => t

/-- `re.sub(r'\x5cs+', ' ', s)`: collapse whitespace runs to one space. -/
def collapseWsAux : Bool → List Char → List Char
  | _, [] => []
  | prevWs, c :: cs =>
    if isPyWs c then
      if prevWs then collapseWsAux true cs
      else ' ' :: collapseWsAux true cs
    else c :: collapseWsAux false cs

/-- `RequirementsParser._extract_title`. -/
def _extract_title (lines : List String) : String :=
  match lines with
  | [] => "Untitled Requirement"
  | first :: _ =>
    let t := id_patterns.foldl (fun acc m => pyStrip ⟨reSubAll m acc.data⟩) first
    let t := stripBoilerplate t
    let t := pyStrip ⟨collapseWsAux false t.data⟩
    if pyIsEmpty t then "Untitled Requirement" else t

/-- Substring containment, as Python `needle in hay`. -/
def containsSub (needle : List Char) : List Char → Bool
  | [] => hasPrefixChars needle []
  | c :: cs => hasPrefixChars needle (c :: cs) || containsSub needle cs

/-- The apostrophe character, kept out of string literals. -/
def apostrophe : Char := Char.ofNat 39

/-- `RequirementsParser.priority_keywords`, in dict insertion order. -/
def priority_keywords : List (String × Priority) :=
  [("must", .P0), ("required", .P0), ("critical", .P0),
   ("should", .P1), ("important", .P1),
   ("could", .P2), ("optional", .P2),
   ("nice to have", .P3),
   ("won" ++ ⟨[apostrophe]⟩ ++ "t", .P3), ("will not", .P3)]

/-- `RequirementsParser._extract_priority`: first keyword (in dict
order) contained in the lowercased text wins, default `P2`. -/
def _extract_priority (text : String) : Priority :=
  match priority_keywords.findSome? fun kp =>
      if containsSub kp.1.data (pyLower text).data then some kp.2 else none with
  | some p => p
  | none => .P2

/-- `models.Requirement`, restricted to the fields the text parser
writes; the metadata dict `{'line_number': ..., 'original_text': ...}`
is modelled by the last two fields. -/
structure Requirement where
  id : String
  title : String
  description : String
  priority : Priority
  source : String
  lineNumber : Nat
  originalText : String
deriving DecidableEq, Repr

/-- `RequirementsParser._create_requirement_from_dict`: every field
conversion is total (all inputs are strings and the priority is already
an enum value), so the `try/except` never fires and the result is
always `some`. -/
def _create_requirement_from_dict (rid : String) (lineNum : Nat)
    (descLines : List String) : Option Requirement :=
  some
    { id := rid
      title := _extract_title descLines
      description := pyJoin " " descLines
      priority := _extract_priority (pyJoin " " descLines)
      source := "text_file"
      lineNumber := lineNum
      originalText := pyJoin " " descLines }

/-- Mutable loop state of `extract_requirements_from_text`. -/
structure ReqParseState where
  reqs : List Requirement
  currentReq : Option (String × Nat)
  currentDescription : List String
  inDescription : Bool
deriving DecidableEq, Repr

/-- One iteration of the `for line_num, line in enumerate(lines, 1)`
loop.  Note the faithful modelling of the source control flow: a blank
line hits `if not line: continue` first, so the later
`elif in_description and not line:` branch is unreachable and
`in_description` is never reset by a blank line. -/
def processReqLine (st : ReqParseState) (numbered : Nat × String) : ReqParseState :=
  let line := pyStrip numbered.2
  if pyIsEmpty line then st
  else
    match _extract_requirement_id line with
    | some rid =>
        let reqs' :=
          match st.currentReq with
          | some prev =>
            if st.currentDescription.isEmpty then st.reqs
            else
              match _create_requirement_from_dict prev.1 prev.2 st.currentDescription with
              | some r => st.reqs ++ [r]
              | none => st.reqs
          | none => st.reqs
        { reqs := reqs'
          currentReq := some (rid, numbered.1)
          currentDescription := [line]
          inDescription := true }
    | none =>
        if st.inDescription && !pyIsEmpty line then
          { st with currentDescription := st.currentDescription ++ [line] }
        else if st.inDescription && pyIsEmpty line then
          { st with inDescription := false }
        else st

/-- `RequirementsParser.extract_requirements_from_text`. -/
def extract_requirements_from_text (text : String) : List Requirement :=
  let numbered := (pySplitLines text).enum.map fun p => (p.1 + 1, p.2)
  let st := numbered.foldl processReqLine ⟨[], none, [], false⟩
  match st.currentReq with
  | some prev =>
    if st.currentDescription.isEmpty then st.reqs
    else
      match _create_requirement_from_dict prev.1 prev.2 st.currentDescription with
      | some r => st.reqs ++ [r]
      | none => st.reqs
  | none => st.reqs

/-! ## Line-level vocabulary used by the claims -/

/-- A record-marker line: after stripping, the line is classified into
the `TC-` branch of the `elif` chain (equivalently, it starts with
`TC-`). -/
def isMarker (l : String) : Bool :=
  decide (classifyLine (pyStrip l) = .marker)

/-- A scalar-field-label line: after stripping, the line is classified
into one of the six branches that write a field of `current_case`
(`Title:`, `Type:`, `Priority:`, `Preconditions:`, `Expected Result:`,
`Covered Elements:`). -/
def isFieldLabel (l : String) : Bool :=
  decide (classifyLine (pyStrip l) = .title) || decide (classifyLine (pyStrip l) = .ctype) ||
  decide (classifyLine (pyStrip l) = .cpriority) || decide (classifyLine (pyStrip l) = .cprecond) ||
  decide (classifyLine (pyStrip l) = .expected) || decide (classifyLine (pyStrip l) = .covered)

/-- The step texts recognized by the state machine while scanning a
block of lines, starting from the given `in_steps` flag: `Steps:` turns
collection on, `Expected Result:` and a record marker turn it off, and
while collection is on every line whose first character is a decimal
digit contributes the text after its first `.` delimiter. -/
def collectSteps (b : Bool) : List String → List String
  | [] => []
  | raw :: ls =>
    match classifyLine (pyStrip raw) with
    | .marker => collectSteps false ls
    | .stepsLabel => collectSteps true ls
    | .expected => collectSteps false ls
    | .other =>
      if b && !pyIsEmpty (pyStrip raw) && (pyFront (pyStrip raw)).isDigit then
        stepTextOf (pyStrip raw) :: collectSteps b ls
      else collectSteps b ls
    | _ => collectSteps b ls

/-! ## Structural lemmas about the screenshot parser -/

/-- Shape of a successfully assembled test case: the step list is the
accumulated one (hence nonempty) and the preconditions come from the
truthiness test on the `preconditions` dict entry. -/
theorem create_some_shape (d : CaseDict) (steps : List String) (tc : TestCase)
    (h : _create_test_case_from_dict d steps = some tc) :
    steps ≠ [] ∧ tc.steps = steps ∧
      tc.preconditions =
        (match d.preconditions with
         | some p => if pyIsEmpty p then [] else [p]
         | none => []) := by
  cases steps with
  | nil => simp [_create_test_case_from_dict, createTestCaseE] at h
  | cons a l =>
    refine ⟨by simp, ?_, ?_⟩ <;>
      simp only [_create_test_case_from_dict, createTestCaseE, List.isEmpty_cons,
        Bool.false_eq_true, if_false] at h <;>
      cases h <;> rfl

/-- Assembly succeeds exactly when the accumulated step list is
nonempty. -/
theorem create_of_ne_nil (d : CaseDict) (steps : List String) (h : steps ≠ []) :
    ∃ tc, _create_test_case_from_dict d steps = some tc := by
  cases steps with
  | nil => exact absurd rfl h
  | cons a l =>
    exact ⟨_, rfl⟩

/-- Every test case in the output of `emitCurrent` is either carried
over or produced by `_create_test_case_from_dict`. -/
theorem emitCurrent_mem (st : ParseState) (tc : TestCase)
    (h : tc ∈ emitCurrent st) :
    tc ∈ st.cases ∨ ∃ d steps, _create_test_case_from_dict d steps = some tc := by
  unfold emitCurrent at h
  split at h
  · exact Or.inl h
  · split at h
    next tc' heq =>
      rcases List.mem_append.1 h with hmem | hmem
      · exact Or.inl hmem
      · simp only [List.mem_singleton] at hmem
        exact Or.inr ⟨st.currentCase, st.currentSteps, hmem ▸ heq⟩
    next => exact Or.inl h

/-- `processLine` only ever adds test cases through
`_create_test_case_from_dict`. -/
theorem processLine_mem (st : ParseState) (raw : String) (tc : TestCase)
    (h : tc ∈ (processLine st raw).cases) :
    tc ∈ st.cases ∨ ∃ d steps, _create_test_case_from_dict d steps = some tc := by
  unfold processLine at h
  split at h
  · exact emitCurrent_mem st tc h
  all_goals first
    | exact Or.inl h
    | (split at h <;> exact Or.inl h)

/-- Fold version of `processLine_mem`. -/
theorem foldl_processLine_mem (ls : List String) :
    ∀ (st : ParseState) (tc : TestCase), tc ∈ (ls.foldl processLine st).cases →
      tc ∈ st.cases ∨ ∃ d steps, _create_test_case_from_dict d steps = some tc := by
  induction ls with
  | nil => intro st tc h; exact Or.inl h
  | cons l ls ih =>
    intro st tc h
    rw [List.foldl_cons] at h
    rcases ih (processLine st l) tc h with h' | h'
    · exact processLine_mem st l tc h'
    · exact Or.inr h'

/-- Every test case returned by the parser was produced by
`_create_test_case_from_dict`. -/
theorem mem_parse_exists_create (s : String) (tc : TestCase)
    (h : tc ∈ parse_test_cases_from_response s) :
    ∃ d steps, _create_test_case_from_dict d steps = some tc := by
  unfold parse_test_cases_from_response at h
  rcases emitCurrent_mem _ tc h with h' | h'
  · rcases foldl_processLine_mem _ _ tc h' with h'' | h''
    · simp at h''
    · exact h''
  · exact h'

/-- Over a block with no record-marker and no field-label lines, the
loop changes neither the emitted list nor the open field dictionary. -/
theorem foldl_no_label (ls : List String) :
    ∀ st : ParseState, (∀ l ∈ ls, isMarker l = false ∧ isFieldLabel l = false) →
      (ls.foldl processLine st).cases = st.cases ∧
      (ls.foldl processLine st).currentCase = st.currentCase := by
  induction ls with
  | nil => intro st _; exact ⟨rfl, rfl⟩
  | cons l ls ih =>
    intro st h
    have hm := (h l (List.mem_cons_self l ls)).1
    have hf := (h l (List.mem_cons_self l ls)).2
    have hrest : ∀ x ∈ ls, isMarker x = false ∧ isFieldLabel x = false :=
      fun x hx => h x (List.mem_cons_of_mem l hx)
    rw [List.foldl_cons]
    obtain ⟨ih1, ih2⟩ := ih (processLine st l) hrest
    have step : (processLine st l).cases = st.cases ∧
        (processLine st l).currentCase = st.currentCase := by
      cases hc : classifyLine (pyStrip l) with
      | marker => rw [isMarker, hc] at hm; simp at hm
      | title => rw [isFieldLabel, hc] at hf; simp at hf
      | ctype => rw [isFieldLabel, hc] at hf; simp at hf
      | cpriority => rw [isFieldLabel, hc] at hf; simp at hf
      | cprecond => rw [isFieldLabel, hc] at hf; simp at hf
      | expected => rw [isFieldLabel, hc] at hf; simp at hf
      | covered => rw [isFieldLabel, hc] at hf; simp at hf
      | stepsLabel => simp [processLine, hc]
      | other =>
        simp only [processLine, hc]
        split <;> exact ⟨rfl, rfl⟩
    exact ⟨ih1.trans step.1, ih2.trans step.2⟩

/-- Over a block with no record-marker line, the loop emits nothing,
keeps the `id` entry of the open dictionary, and appends exactly the
steps described by `collectSteps`. -/
theorem foldl_steps_append (ls : List String) :
    ∀ st : ParseState, (∀ l ∈ ls, isMarker l = false) →
      (ls.foldl processLine st).cases = st.cases ∧
      (ls.foldl processLine st).currentCase.id = st.currentCase.id ∧
      (ls.foldl processLine st).currentSteps =
        st.currentSteps ++ collectSteps st.inSteps ls := by
  induction ls with
  | nil => intro st _; exact ⟨rfl, rfl, by simp [collectSteps]⟩
  | cons l ls ih =>
    intro st h
    have hm := h l (List.mem_cons_self l ls)
    have hrest : ∀ x ∈ ls, isMarker x = false :=
      fun x hx => h x (List.mem_cons_of_mem l hx)
    rw [List.foldl_cons]
    obtain ⟨ih1, ih2, ih3⟩ := ih (processLine st l) hrest
    cases hc : classifyLine (pyStrip l) with
    | marker => rw [isMarker, hc] at hm; simp at hm
    | stepsLabel =>
      refine ⟨?_, ?_, ?_⟩
      · rw [ih1]; simp [processLine, hc]
      · rw [ih2]; simp [processLine, hc]
      · rw [ih3]; simp [processLine, hc, collectSteps]
    | expected =>
      refine ⟨?_, ?_, ?_⟩
      · rw [ih1]; simp [processLine, hc]
      · rw [ih2]; simp [processLine, hc]
      · rw [ih3]; simp [processLine, hc, collectSteps]
    | other =>
      by_cases hcond :
          (st.inSteps && !pyIsEmpty (pyStrip l) && (pyFront (pyStrip l)).isDigit) = true
      · refine ⟨?_, ?_, ?_⟩
        · rw [ih1]; simp [processLine, hc, hcond]
        · rw [ih2]; simp [processLine, hc, hcond]
        · rw [ih3]; simp [processLine, hc, hcond, collectSteps, List.append_assoc]
      · rw [Bool.not_eq_true] at hcond
        refine ⟨?_, ?_, ?_⟩
        · rw [ih1]; simp [processLine, hc, hcond]
        · rw [ih2]; simp [processLine, hc, hcond]
        · rw [ih3]; simp [processLine, hc, hcond, collectSteps]
    | title =>
      refine ⟨?_, ?_, ?_⟩
      · rw [ih1]; simp [processLine, hc]
      · rw [ih2]; simp [processLine, hc]
      · rw [ih3]; simp [processLine, hc, collectSteps]
    | ctype =>
      refine ⟨?_, ?_, ?_⟩
      · rw [ih1]; simp [processLine, hc]
      · rw [ih2]; simp [processLine, hc]
      · rw [ih3]; simp [processLine, hc, collectSteps]
    | cpriority =>
      refine ⟨?_, ?_, ?_⟩
      · rw [ih1]; simp [processLine, hc]
      · rw [ih2]; simp [processLine, hc]
      · rw [ih3]; simp [processLine, hc, collectSteps]
    | cprecond =>
      refine ⟨?_, ?_, ?_⟩
      · rw [ih1]; simp [processLine, hc]
      · rw [ih2]; simp [processLine, hc]
      · rw [ih3]; simp [processLine, hc, collectSteps]
    | covered =>
      refine ⟨?_, ?_, ?_⟩
      · rw [ih1]; simp [processLine, hc]
      · rw [ih2]; simp [processLine, hc]
      · rw [ih3]; simp [processLine, hc, collectSteps]

/-- A dictionary with an `id` entry is not empty. -/
theorem isEmptyDict_eq_false_of_id (d : CaseDict) (x : String) (h : d.id = some x) :
    d.isEmptyDict = false := by
  simp [CaseDict.isEmptyDict, h]

/-! ## Equivalence of the exception-explicit parser with the pure one -/

/-- The `try/except` in `_create_test_case_from_dict` catches the only
possible exception. -/
theorem createE_eq (d : CaseDict) (steps : List String) :
    _create_test_case_from_dictE d steps = .ok (_create_test_case_from_dict d steps) := by
  unfold _create_test_case_from_dictE _create_test_case_from_dict
  cases createTestCaseE d steps <;> rfl

/-- `emitCurrentE` never raises. -/
theorem emitCurrentE_eq (st : ParseState) : emitCurrentE st = .ok (emitCurrent st) := by
  unfold emitCurrentE emitCurrent
  split
  · rfl
  · rw [createE_eq]
    cases _create_test_case_from_dict st.currentCase st.currentSteps <;> rfl

/-- `processLineE` never raises. -/
theorem processLineE_eq (st : ParseState) (raw : String) :
    processLineE st raw = .ok (processLine st raw) := by
  cases hc : classifyLine (pyStrip raw) <;>
    simp [processLineE, processLine, hc, emitCurrentE_eq]

/-- The exception-propagating fold never raises. -/
theorem foldProcessE_eq (ls : List String) :
    ∀ st : ParseState, foldProcessE st ls = .ok (ls.foldl processLine st) := by
  induction ls with
  | nil => intro st; rfl
  | cons l ls ih =>
    intro st
    rw [List.foldl_cons]
    simp [foldProcessE, processLineE_eq, ih]

/-! ## Claims -/

set_option maxRecDepth 200000

/-- The reply text of the C1 scenario. -/
def c1_input : String :=
  "TC-001: Login - Valid\nTitle: Valid login\nType: FUNC\nPriority: P0\nSteps:\n1. Enter username\n2. Enter password\n3. Click login\nExpected Result: User reaches dashboard"

/-- The record the C1 scenario parses to. -/
def c1_expected : TestCase :=
  { id := "TC-001: Login - Valid"
    title := "Valid login"
    test_type := .FUNC
    priority := .P0
    preconditions := []
    steps := ["Enter username", "Enter password", "Click login"]
    expected_result := "User reaches dashboard"
    covered_elements := ""
    source := "screenshot_ai" }

/-- C1: the nine-line reply of the scenario parses to exactly one test
case whose title is `Valid login`, whose type is the functional
category, whose priority is P0, whose steps are exactly the three
entered steps in order, and whose expected result is
`User reaches dashboard`. -/
theorem claim_C1_scenario :
    parse_test_cases_from_response c1_input = [c1_expected] := by decide

/-- Reply text with no `TC-` line that nevertheless parses to a
record. -/
def c2_cex_input : String := "Title: Foo\nSteps:\n1. Do thing"

/-- C2 is false as stated: a reply in which no line begins with `TC-`
can still produce a record, because a scalar label line with no record
open writes into the initially empty dictionary instead of being
ignored. -/
theorem claim_C2_counterexample :
    (∀ l ∈ pySplitLines c2_cex_input, isMarker l = false) ∧
    parse_test_cases_from_response c2_cex_input ≠ [] := by decide

/-- C2 (amended): for every reply text in which no line begins with
`TC-` and no line begins with one of the six field labels, the parser
returns the empty list (lines recognized as `Steps:` or numbered steps,
and arbitrary other lines, contribute no record on their own). -/
theorem claim_C2_amended (s : String)
    (h : ∀ l ∈ pySplitLines s, isMarker l = false ∧ isFieldLabel l = false) :
    parse_test_cases_from_response s = [] := by
  unfold parse_test_cases_from_response
  obtain ⟨h1, h2⟩ := foldl_no_label (pySplitLines s) ⟨[], {}, [], false⟩ h
  simp [emitCurrent, h1, h2, CaseDict.isEmptyDict]

/-- C2 witness: a concrete markerless, labelless reply parses to the
empty list. -/
theorem claim_C2_amended_witness :
    parse_test_cases_from_response "hello\nSteps:\n1. stray step\nworld" = [] :=
  claim_C2_amended _ (by decide)

/-- C3: every test case emitted by the parsing pipeline has a nonempty
step list; a record marker immediately followed by another record
marker contributes no record, and a record whose `Steps:` section
contains no digit-prefixed line contributes no record. -/
theorem claim_C3_steps_nonempty :
    (∀ (s : String) (tc : TestCase),
        tc ∈ parse_test_cases_from_response s → tc.steps ≠ []) ∧
    parse_test_cases_from_response "TC-001: A\nTC-002: B" = [] ∧
    parse_test_cases_from_response
      "TC-003: C\nSteps:\nno digit steps here\nExpected Result: z" = [] := by
  refine ⟨?_, by decide, by decide⟩
  intro s tc h
  obtain ⟨d, steps, hcr⟩ := mem_parse_exists_create s tc h
  obtain ⟨hne, hst, -⟩ := create_some_shape d steps tc hcr
  rw [hst]; exact hne

/-- C3 witness: the record of the C1 scenario has nonempty steps. -/
theorem claim_C3_witness : c1_expected.steps ≠ [] :=
  claim_C3_steps_nonempty.1 c1_input c1_expected (by decide)

/-- C4: `parse_test_cases_from_response` is total and never raises on
any input: the exception-explicit model of the same loop, in which the
record-constructor validation is the one fallible operation, returns
`ok` of the pure result for every string. -/
theorem claim_C4_total_no_exception (s : String) :
    parse_test_cases_from_responseE s =
      .ok (parse_test_cases_from_response s) := by
  unfold parse_test_cases_from_responseE parse_test_cases_from_response
  rw [foldProcessE_eq]
  exact emitCurrentE_eq _

/-- C4 witness: the exception-explicit parser returns `ok` on the C1
scenario input. -/
theorem claim_C4_witness :
    parse_test_cases_from_responseE c1_input =
      .ok (parse_test_cases_from_response c1_input) :=
  claim_C4_total_no_exception c1_input

/-- Reply with exactly one marker, followed by `Steps:` and a digit
line, but with a field label and a collected step before the marker. -/
def c5_cex_input : String := "Title: x\nSteps:\n1. a\nTC-001\nSteps:\n1. b"

/-- C5 is false as stated: this reply contains exactly one record
marker, followed by a `Steps:` label and one recognized digit line, yet
the parser returns two records, because the pre-marker label and step
lines assemble into a record of their own. -/
theorem claim_C5_counterexample :
    List.countP (fun l => isMarker l) (pySplitLines c5_cex_input) = 1 ∧
    collectSteps false ["Steps:", "1. b"] = ["b"] ∧
    (parse_test_cases_from_response c5_cex_input).length = 2 := by decide

/-- C5 (amended): if the lines before the unique record marker contain
no field-label line (and no marker), the marker line is followed by a
block with no further marker, and at least one numbered step is
recognized in that block, then the parser returns exactly one record
whose steps are exactly the recognized step texts (text after the first
`.`, or the whole line), in order. -/
theorem claim_C5_amended (s : String) (pre : List String) (marker : String)
    (post : List String)
    (hsplit : pySplitLines s = pre ++ marker :: post)
    (hpre : ∀ l ∈ pre, isMarker l = false ∧ isFieldLabel l = false)
    (hmark : isMarker marker = true)
    (hpost : ∀ l ∈ post, isMarker l = false)
    (hsteps : collectSteps false post ≠ []) :
    ∃ tc, parse_test_cases_from_response s = [tc] ∧
      tc.steps = collectSteps false post := by
  unfold parse_test_cases_from_response
  rw [hsplit, List.foldl_append, List.foldl_cons]
  obtain ⟨h1, h2⟩ := foldl_no_label pre ⟨[], {}, [], false⟩ hpre
  have hcl : classifyLine (pyStrip marker) = .marker := by
    rw [isMarker] at hmark; exact of_decide_eq_true hmark
  have hemit : emitCurrent (pre.foldl processLine ⟨[], {}, [], false⟩) = [] := by
    simp [emitCurrent, h1, h2, CaseDict.isEmptyDict]
  have hproc : processLine (pre.foldl processLine ⟨[], {}, [], false⟩) marker =
      ⟨[], { id := some (pyStrip marker) }, [], false⟩ := by
    simp [processLine, hcl, hemit]
  rw [hproc]
  obtain ⟨hA1, hA2, hA3⟩ :=
    foldl_steps_append post ⟨[], { id := some (pyStrip marker) }, [], false⟩ hpost
  simp only [List.nil_append] at hA3
  obtain ⟨tc, htc⟩ := create_of_ne_nil
    (post.foldl processLine ⟨[], { id := some (pyStrip marker) }, [], false⟩).currentCase
    (post.foldl processLine ⟨[], { id := some (pyStrip marker) }, [], false⟩).currentSteps
    (by rw [hA3]; exact hsteps)
  refine ⟨tc, ?_, ?_⟩
  · simp [emitCurrent, isEmptyDict_eq_false_of_id _ _ hA2, htc, hA1]
  · obtain ⟨-, hsteps_eq, -⟩ := create_some_shape _ _ tc htc
    rw [hsteps_eq, hA3]

/-- C5 witness: a minimal marker-first reply with one recognized
step. -/
theorem claim_C5_amended_witness :
    ∃ tc, parse_test_cases_from_response "TC-010\nSteps:\n1. press button" = [tc] ∧
      tc.steps = collectSteps false ["Steps:", "1. press button"] :=
  claim_C5_amended _ [] "TC-010" ["Steps:", "1. press button"]
    (by decide) (by decide) (by decide) (by decide) (by decide)

/-- The `Type:` values recognized by the assembler. -/
def typeEnumStrings : List String :=
  ["FUNC", "BOUND", "NEG", "PERM", "SEC", "PERF", "A11Y"]

/-- The `Priority:` values recognized by the assembler. -/
def priorityEnumStrings : List String := ["P0", "P1", "P2", "P3"]

/-- C6: with a nonempty step list, assembly always succeeds, and a
`Type:` value outside the fixed enumeration (or an absent one)
normalizes to the functional category while a `Priority:` value outside
the fixed enumeration (or an absent one) normalizes to the medium tier
P2. -/
theorem claim_C6_enum_fallback (d : CaseDict) (steps : List String)
    (hs : steps ≠ [])
    (ht : ∀ t, d.type = some t → t ∉ typeEnumStrings)
    (hp : ∀ p, d.priority = some p → p ∉ priorityEnumStrings) :
    ∃ tc, _create_test_case_from_dict d steps = some tc ∧
      tc.test_type = TestCaseType.FUNC ∧ tc.priority = Priority.P2 := by
  cases steps with
  | nil => exact absurd rfl hs
  | cons a l =>
    refine ⟨_, rfl, ?_, ?_⟩
    · show (List.lookup (d.type.getD "FUNC") type_mapping).getD .FUNC = .FUNC
      cases hd : d.type with
      | none => rfl
      | some t =>
        have hmem := ht t hd
        simp only [typeEnumStrings, List.mem_cons, List.not_mem_nil, or_false,
          not_or] at hmem
        obtain ⟨n1, n2, n3, n4, n5, n6, n7⟩ := hmem
        simp [type_mapping, List.lookup, beq_eq_false_iff_ne.mpr n1,
          beq_eq_false_iff_ne.mpr n2, beq_eq_false_iff_ne.mpr n3,
          beq_eq_false_iff_ne.mpr n4, beq_eq_false_iff_ne.mpr n5,
          beq_eq_false_iff_ne.mpr n6, beq_eq_false_iff_ne.mpr n7]
    · show (List.lookup (d.priority.getD "P2") priority_mapping).getD .P2 = .P2
      cases hd : d.priority with
      | none => rfl
      | some p =>
        have hmem := hp p hd
        simp only [priorityEnumStrings, List.mem_cons, List.not_mem_nil, or_false,
          not_or] at hmem
        obtain ⟨n1, n2, n3, n4⟩ := hmem
        simp [priority_mapping, List.lookup, beq_eq_false_iff_ne.mpr n1,
          beq_eq_false_iff_ne.mpr n2, beq_eq_false_iff_ne.mpr n3,
          beq_eq_false_iff_ne.mpr n4]

/-- Dictionary with unrecognized `Type:` and `Priority:` values. -/
def c6_dict : CaseDict := { type := some "WEIRD", priority := some "HIGH" }

/-- C6 witness: `WEIRD` and `HIGH` fall back to FUNC and P2 without
failing. -/
theorem claim_C6_witness :
    ∃ tc, _create_test_case_from_dict c6_dict ["one step"] = some tc ∧
      tc.test_type = TestCaseType.FUNC ∧ tc.priority = Priority.P2 :=
  claim_C6_enum_fallback c6_dict ["one step"] (by decide)
    (by intro t h; simp only [c6_dict, Option.some.injEq] at h; subst h; decide)
    (by intro p h; simp only [c6_dict, Option.some.injEq] at h; subst h; decide)

/-- The requirements-parser scenario input of C7. -/
def c7_input : String := "REQ-003: The system must allow password reset"

/-- C7 is false as stated: the produced title is not
`The system must allow password reset`, because stripping the matched
ID leaves the colon separator in place. -/
theorem claim_C7_counterexample :
    (extract_requirements_from_text c7_input).map Requirement.title ≠
      ["The system must allow password reset"] := by decide

/-- C7 (amended): the scenario line yields exactly one requirement with
id `REQ-003`, priority P0 (keyword `must`), and title
`: The system must allow password reset` — the ID substring and any
boilerplate markers are stripped and whitespace collapsed, but the
colon separator that followed the ID remains. -/
theorem claim_C7_amended :
    (extract_requirements_from_text c7_input).map
        (fun r => (r.id, r.priority, r.title)) =
      [("REQ-003", Priority.P0, ": The system must allow password reset")] := by
  decide

/-- Requirements input with a blank line inside a description block. -/
def c8_input : String :=
  "REQ-001: Users must reset passwords\nFirst detail line\n\nTrailing line after blank"

/-- C8 (code-bug evidence): the captured description of `REQ-001`
includes the content line after the blank line.  In the source, the
blank line takes the early `continue`, so the later
`elif in_description and not line:` branch that would end the
description block is unreachable. -/
theorem claim_C8_code_bug_evidence :
    (extract_requirements_from_text c8_input).map Requirement.description =
      ["REQ-001: Users must reset passwords First detail line Trailing line after blank"] := by
  decide

/-- C9: `create_vision_prompt` is a pure function of the category list
and the context string: equal inputs produce byte-identical prompts.
The embedding is a straight-line string construction, mirroring the
source method, which reads no other state and performs no I/O. -/
theorem claim_C9_deterministic (ts1 ts2 : List String) (ctx1 ctx2 : String)
    (ht : ts1 = ts2) (hc : ctx1 = ctx2) :
    create_vision_prompt ts1 ctx1 = create_vision_prompt ts2 ctx2 := by
  rw [ht, hc]

/-- C9 witness: two calls at the same concrete inputs agree. -/
theorem claim_C9_witness :
    create_vision_prompt ["FUNC", "SEC"] "checkout page" =
      create_vision_prompt ["FUNC", "SEC"] "checkout page" :=
  claim_C9_deterministic ["FUNC", "SEC"] ["FUNC", "SEC"]
    "checkout page" "checkout page" rfl rfl

/-- C10: every returned test case has at most one precondition entry;
an assembled record's preconditions are the singleton of the stored
`Preconditions:` remainder when it is nonempty and empty otherwise; and
a `Preconditions:` line overwrites the dictionary entry of the open
record, so the last such line wins. -/
theorem claim_C10_preconditions :
    (∀ (s : String) (tc : TestCase),
        tc ∈ parse_test_cases_from_response s → tc.preconditions.length ≤ 1) ∧
    (∀ (d : CaseDict) (steps : List String) (tc : TestCase),
        _create_test_case_from_dict d steps = some tc →
        tc.preconditions =
          (match d.preconditions with
           | some p => if pyIsEmpty p then [] else [p]
           | none => [])) ∧
    (∀ (st : ParseState) (raw : String),
        classifyLine (pyStrip raw) = .cprecond →
        (processLine st raw).currentCase.preconditions =
          some (pyStrip (pyReplace (pyStrip raw) "Preconditions:" ""))) := by
  refine ⟨?_, ?_, ?_⟩
  · intro s tc h
    obtain ⟨d, steps, hcr⟩ := mem_parse_exists_create s tc h
    obtain ⟨-, -, hpre⟩ := create_some_shape d steps tc hcr
    rw [hpre]
    cases d.preconditions with
    | none => simp
    | some p => by_cases hp : pyIsEmpty p = true <;> simp [hp]
  · intro d steps tc h
    exact (create_some_shape d steps tc h).2.2
  · intro st raw hc
    simp [processLine, hc]

/-- C10 witness: the C1 record has at most one precondition entry. -/
theorem claim_C10_witness : c1_expected.preconditions.length ≤ 1 :=
  claim_C10_preconditions.1 c1_input c1_expected (by decide)
